import Mathlib

/-!
# Shallow embedding of `butil::DoublyBufferedData<T, TLS>`

This file embeds the doubly-buffered-data container from the repository's
header (`doubly_buffered_data.h`) and proves properties of its operations.

Modelling decisions:
* The two-slot array `T _data[2]` is a function `Bool → T`
  (`false` is `_data[0]`, `true` is `_data[1]`).
* The atomic foreground index `_index` is a `Bool` (it only ever holds the
  values `0` and `1`: it is initialised to `0` and only ever stores
  `bg_index = !_index`).  The C integer negation `!` becomes `Bool.not`.
* A writer function `Fn` passed to `Modify` mutates its slot through a
  `T&` reference and returns a `size_t`; it is embedded as `T → T × Nat`
  (new slot contents paired with the return value).
* Observable side effects of `Modify` (the `std::cerr` diagnostic at the
  end, the drain loop over `_wrappers`, and the number of invocations of
  `fn`) are recorded in instrumentation fields of the result.
* `Read` interacts with the environment (`pthread_getspecific`, allocation,
  `push_back`, `pthread_setspecific`); those outcomes are supplied by a
  `ReadEnv` record, and wrapper identities (pointers) are `Nat` ids.
-/

namespace DBDSpec

/-- State of a `DoublyBufferedData<T, TLS>` container:
`data` models `T _data[2]`, `index` models the atomic `_index`
(foreground slot selector), `createdKey` models `_created_key`, and
`wrappers` models the registry `std::vector<Wrapper*> _wrappers`
(wrapper pointers as `Nat` ids, in insertion order). -/
structure DBD (T : Type) where
  data : Bool → T
  index : Bool
  createdKey : Bool
  wrappers : List Nat

/-- Result of a `Modify` call: the post-call container state, the returned
`size_t`, and instrumentation for the observable effects: how many times
`fn` was invoked, whether the drain loop over `_wrappers` ran, and whether
the `std::cerr` diagnostic at the end of `Modify` was emitted. -/
structure ModifyResult (T : Type) where
  state : DBD T
  ret : Nat
  fnCalls : Nat
  drained : Bool
  diagEmitted : Bool

/-- Core of `DoublyBufferedData::Modify(Fn& fn)` (lines 379-422), generalised
over the functor: the functor receives the current slot array and the index
of the slot it mutates (in C++ it receives a `T&` reference, which carries
both the slot's address and, for the `WithFG` functors, access to the other
slot through the captured `_data` pointer).

Control flow translated from the source:
1. `bg_index = !_index` (relaxed load under `_modify_mutex`);
2. `ret = fn(_data[bg_index])`; if `!ret`, return `0`;
3. publish: `_index.store(bg_index)`; `bg_index = !bg_index`;
4. drain: lock/unlock every wrapper in `_wrappers`;
5. `ret2 = fn(_data[bg_index])`; if `ret2 == ret` print the diagnostic;
   return `ret2`. -/
def modifyCore {T : Type} (fn : (Bool → T) → Bool → T × Nat) (s : DBD T) :
    ModifyResult T :=
  let bgIndex := !s.index
  let a1 := fn s.data bgIndex
  let data1 := fun b => if b = bgIndex then a1.1 else s.data b
  if a1.2 = 0 then
    { state := { s with data := data1 }, ret := 0,
      fnCalls := 1, drained := false, diagEmitted := false }
  else
    let s1 : DBD T := { s with data := data1, index := bgIndex }
    let bgIndex2 := !bgIndex
    let a2 := fn s1.data bgIndex2
    let data2 := fun b => if b = bgIndex2 then a2.1 else s1.data b
    { state := { s1 with data := data2 }, ret := a2.2,
      fnCalls := 2, drained := true, diagEmitted := a2.2 == a1.2 }

/-- `DoublyBufferedData::Modify(Fn& fn)`: the plain functor only sees the
value of the slot it mutates. -/
def Modify {T : Type} (fn : T → T × Nat) (s : DBD T) : ModifyResult T :=
  modifyCore (fun data bg => fn (data bg)) s

/-- `DoublyBufferedData::ModifyWithForeground(Fn& fn)` (lines 442-445):
wraps `fn` in `WithFG0`, whose `operator()(T& bg)` calls
`fn(bg, _data[&bg == _data])`.  `&bg == _data` is `true` exactly when `bg`
is `_data[0]`, so the second (`const`) argument is the slot opposite the
one being mutated: `data (!bg)`. -/
def ModifyWithForeground {T : Type} (fn : T → T → T × Nat) (s : DBD T) :
    ModifyResult T :=
  modifyCore (fun data bg => fn (data bg) (data (!bg))) s

/-- Outcomes of the platform/environment interactions performed by one
`Read` call: the `pthread_getspecific` result (the calling thread's
existing wrapper id, if any), whether `new (std::nothrow) Wrapper` succeeds,
whether `_wrappers.push_back` completes without throwing, whether
`pthread_setspecific` returns `0`, and the id of the freshly allocated
wrapper. -/
structure ReadEnv where
  existingWrapper : Option Nat
  allocOk : Bool
  pushOk : Bool
  setSpecificOk : Bool
  newWid : Nat

/-- `DoublyBufferedData::ScopedPtr`: `data` models the `const T* _data`
member as the index of the slot it points into (`none` is `NULL`), and
`w` models the `Wrapper* _w` member (`none` is `NULL`). -/
structure ScopedPtr where
  data : Option Bool
  w : Option Nat

/-- `ScopedPtr::ScopedPtr()`: both pointers `NULL`. -/
def ScopedPtr.mk0 : ScopedPtr := { data := none, w := none }

/-- `ScopedPtr::~ScopedPtr()` (lines 53-57) calls `_w->EndRead()` (a mutex
unlock) exactly when `_w` is non-null; this function returns whether the
destructor performs that unlock. -/
def scopedPtrDtorUnlocks (p : ScopedPtr) : Bool := p.w.isSome

/-- Result of a `Read` call: post-call container state, post-call guard,
and the returned `int` (`0` or `-1`). -/
structure ReadResult (T : Type) where
  state : DBD T
  ptr : ScopedPtr
  ret : Int

/-- `DoublyBufferedData::AddWrapper()` (lines 264-276): allocate a wrapper
with `new (std::nothrow)`; on allocation failure return `NULL`; then
`push_back` it into `_wrappers` under `_wrappers_mutex`, returning `NULL`
(with the registry unchanged, by `vector::push_back`'s strong exception
guarantee, and the wrapper freed by `unique_ptr`) if that throws. -/
def AddWrapper {T : Type} (s : DBD T) (env : ReadEnv) :
    DBD T × Option Nat :=
  if !env.allocOk then (s, none)
  else if !env.pushOk then (s, none)
  else ({ s with wrappers := s.wrappers ++ [env.newWid] }, some env.newWid)

/-- `DoublyBufferedData::Read(ScopedPtr* ptr)` (lines 347-374):
fail fast if `_created_key` is false; otherwise use the thread's existing
wrapper if `pthread_getspecific` finds one, else `AddWrapper` and bind it
with `pthread_setspecific`.  On every success path the guard receives
`UnsafeRead()` (a pointer to `_data[_index]`) and the wrapper; on every
failure path `ptr` is left untouched and `-1` is returned. -/
def Read {T : Type} (s : DBD T) (env : ReadEnv) (ptr : ScopedPtr) :
    ReadResult T :=
  if !s.createdKey then
    { state := s, ptr := ptr, ret := -1 }
  else
    match env.existingWrapper with
    | some wid =>
        { state := s, ptr := { data := some s.index, w := some wid }, ret := 0 }
    | none =>
        let aw := AddWrapper s env
        match aw.2 with
        | some wid =>
            if env.setSpecificOk then
              { state := aw.1,
                ptr := { data := some aw.1.index, w := some wid }, ret := 0 }
            else
              { state := aw.1, ptr := ptr, ret := -1 }
        | none => { state := aw.1, ptr := ptr, ret := -1 }

/-- `DoublyBufferedData::DoublyBufferedData()` (lines 297-323):
`_index(0)`, `_created_key` set to `true` exactly when `pthread_key_create`
succeeded (`keyCreateOk`), empty wrapper registry; when `T` is an integral,
floating-point, pointer or member-function-pointer type (`scalarLike`),
both slots are assigned a default-constructed `T()` (`dflt`), otherwise
they keep whatever default construction left there (`garbage`). -/
def mkDBD {T : Type} (scalarLike : Bool) (dflt : T) (garbage : Bool → T)
    (keyCreateOk : Bool) : DBD T :=
  { data := if scalarLike then fun _ => dflt else garbage
  , index := false
  , createdKey := keyCreateOk
  , wrappers := [] }

/-- A `ReadEnv` for a thread with no existing wrapper where every
environment interaction succeeds. -/
def freshReadEnv (wid : Nat) : ReadEnv :=
  { existingWrapper := none, allocOk := true, pushOk := true,
    setSpecificOk := true, newWid := wid }

/-- `DoublyBufferedData::Wrapper`: a reader registration record, as seen by
its destructor: its identity (`wid`, the pointer value) and whether its
back-pointer `_control` to the container is non-null. -/
structure Wrapper where
  wid : Nat
  controlNonNull : Bool

/-- `DoublyBufferedData::RemoveWrapper(Wrapper* w)` (lines 281-294) applied
to the registry list: return unchanged if `w` is `NULL`; otherwise scan for
the first element equal to `w`, overwrite it with the vector's last element
and `pop_back` (so on a hit the result is
`(regs.replace x last).dropLast`), leaving the registry unchanged when `w`
is not found. -/
def RemoveWrapper (regs : List Nat) (w : Option Nat) : List Nat :=
  match w with
  | none => regs
  | some x =>
      match regs.getLast? with
      | none => regs
      | some last => if x ∈ regs then (regs.replace x last).dropLast else regs

/-- `DoublyBufferedData::Wrapper::~Wrapper()` (lines 232-237) restricted to
its effect on the registry: call `_control->RemoveWrapper(this)` exactly
when the back-pointer `_control` is non-null. -/
def wrapperDtorRegistry (regs : List Nat) (w : Wrapper) : List Nat :=
  if w.controlNonNull then RemoveWrapper regs (some w.wid) else regs

/-! ## Theorems about the claims -/

/-- C1: the claim says `Modify` emits a diagnostic exactly when the two
`fn` applications return different nonzero values.  The source does the
opposite (`if (ret2 == ret) { std::cerr << ... }`, line 418): evaluated on
concrete inputs, a run with r1 = 1 and r2 = 6 (different) emits no
diagnostic, while a run with r1 = r2 = 1 (equal) emits one. -/
theorem modify_diag_inverted :
    -- run with different results r1 = 1 (on slot value 0), r2 = 6 (on 5):
    (let s : DBD Nat :=
      { data := fun b => if b then 0 else 5, index := false,
        createdKey := true, wrappers := [] }
     let fn : Nat → Nat × Nat := fun x => (x + 1, x + 1)
     (Modify fn s).ret = 6 ∧ (Modify fn s).diagEmitted = false) ∧
    -- run with equal nonzero results r1 = r2 = 1 (both slots 0):
    (let s : DBD Nat :=
      { data := fun _ => 0, index := false,
        createdKey := true, wrappers := [] }
     let fn : Nat → Nat × Nat := fun x => (x + 1, x + 1)
     (Modify fn s).ret = 1 ∧ (Modify fn s).diagEmitted = true) := by
  constructor <;> exact ⟨rfl, rfl⟩

/-- C2: when the first application of `fn` returns nonzero, `Modify` stores
the former background index `!fg_index` into `fg_index` (flipping the
foreground) and returns the result of the second application of `fn`
(which is applied to the pre-call foreground slot, untouched by the
first application). -/
theorem modify_flip_and_return {T : Type} (fn : T → T × Nat) (s : DBD T)
    (h : (fn (s.data !s.index)).2 ≠ 0) :
    (Modify fn s).state.index = !s.index ∧
    (Modify fn s).ret = (fn (s.data s.index)).2 := by
  simp [Modify, modifyCore, h, Bool.not_not]

/-- Witness for `modify_flip_and_return` at a concrete input where the two
applications return different values (r1 = 1, r2 = 6), showing the returned
value is r2, not r1. -/
theorem modify_flip_and_return_witness :
    (let s : DBD Nat :=
      { data := fun b => if b then 0 else 5, index := false,
        createdKey := true, wrappers := [] }
     let fn : Nat → Nat × Nat := fun x => (x + 1, x + 1)
     (Modify fn s).state.index = true ∧ (Modify fn s).ret = 6) := by
  have h := modify_flip_and_return (T := Nat) (fun x => (x + 1, x + 1))
    { data := fun b => if b then 0 else 5, index := false,
      createdKey := true, wrappers := [] } (by decide)
  exact h

/-- C3 counterexample: the claim says an early-exit `Modify` (first
application of `fn` returns `0`) leaves the container unchanged, but `fn`
receives the background slot by mutable reference, so its write survives
the early exit: with both slots `0` and `fn` writing `42` while returning
`0`, `Modify` returns `0` yet the background slot now holds `42`. -/
theorem modify_early_exit_mutates_bg :
    (let s : DBD Nat :=
      { data := fun _ => 0, index := false,
        createdKey := true, wrappers := [] }
     let fn : Nat → Nat × Nat := fun _ => (42, 0)
     (Modify fn s).ret = 0 ∧ s.data true = 0 ∧
       (Modify fn s).state.data true = 42) := by
  exact ⟨rfl, rfl, rfl⟩

/-- C3 amended: when the first application of `fn` returns `0`, `Modify`
returns `0` with `fg_index` unchanged, `fn` is not applied a second time,
no drain over the reader registry occurs, and the foreground slot and the
registry are unchanged — but the background slot holds whatever the single
application of `fn` wrote. -/
theorem modify_early_exit {T : Type} (fn : T → T × Nat) (s : DBD T)
    (h : (fn (s.data !s.index)).2 = 0) :
    (Modify fn s).ret = 0 ∧
    (Modify fn s).state.index = s.index ∧
    (Modify fn s).fnCalls = 1 ∧
    (Modify fn s).drained = false ∧
    (Modify fn s).state.data s.index = s.data s.index ∧
    (Modify fn s).state.wrappers = s.wrappers ∧
    (Modify fn s).state.data (!s.index) = (fn (s.data !s.index)).1 := by
  simp [Modify, modifyCore, h]

/-- Witness for `modify_early_exit`: an identity-like `fn` returning `0`
on a concrete container leaves `fg_index`, the foreground slot and the
registry unchanged, with one call of `fn` and no drain. -/
theorem modify_early_exit_witness :
    (let s : DBD Nat :=
      { data := fun _ => 0, index := false,
        createdKey := true, wrappers := [3] }
     let fn : Nat → Nat × Nat := fun x => (x, 0)
     (Modify fn s).ret = 0 ∧ (Modify fn s).state.index = false ∧
     (Modify fn s).fnCalls = 1 ∧ (Modify fn s).drained = false ∧
     (Modify fn s).state.data false = 0 ∧
     (Modify fn s).state.wrappers = [3] ∧
     (Modify fn s).state.data true = 0) := by
  have h := modify_early_exit (T := Nat) (fun x => (x, 0))
    { data := fun _ => 0, index := false,
      createdKey := true, wrappers := [3] } (by decide)
  exact h

/-- Helper: a setter functor that overwrites its slot with the fixed value
`v` (returning `1`) leaves every slot equal to `v` after `Modify`. -/
theorem modify_setter_slot {T : Type} (v : T) (s : DBD T) (b : Bool) :
    (Modify (fun _ => (v, 1)) s).state.data b = v := by
  obtain ⟨d, i, k, w⟩ := s
  cases i <;> cases b <;> simp [Modify, modifyCore]

/-- C4: a `Modify` returning nonzero has applied `fn` exactly once to each
slot — each post-call slot is `fn` of that slot's pre-call value (so the
second application consumed the pre-call foreground, untouched by the
first), with the index flip in between; consequently a setter functor
leaves both slots equal to `v`, and so do two back-to-back setter calls. -/
theorem modify_applies_fn_to_both_slots {T : Type} (fn : T → T × Nat)
    (s : DBD T) (v : T) (h : (Modify fn s).ret ≠ 0) :
    ((Modify fn s).state.data (!s.index) = (fn (s.data !s.index)).1 ∧
     (Modify fn s).state.data s.index = (fn (s.data s.index)).1 ∧
     (Modify fn s).fnCalls = 2 ∧
     (Modify fn s).state.index = !s.index) ∧
    (∀ b, (Modify (fun _ => (v, 1)) s).state.data b = v) ∧
    (∀ b, (Modify (fun _ => (v, 1))
            (Modify (fun _ => (v, 1)) s).state).state.data b = v) := by
  refine ⟨?_, fun b => modify_setter_slot v s b,
    fun b => modify_setter_slot v _ b⟩
  by_cases h1 : (fn (s.data !s.index)).2 = 0
  · exact absurd (by simp [Modify, modifyCore, h1]) h
  · simp [Modify, modifyCore, h1, Bool.not_not]

/-- Witness for `modify_applies_fn_to_both_slots` at a concrete input:
incrementing both slots of a container holding 5 and 0. -/
theorem modify_applies_fn_to_both_slots_witness :
    (let s : DBD Nat :=
      { data := fun b => if b then 0 else 5, index := false,
        createdKey := true, wrappers := [] }
     let fn : Nat → Nat × Nat := fun x => (x + 1, x + 1)
     ((Modify fn s).state.data true = 1 ∧
      (Modify fn s).state.data false = 6 ∧
      (Modify fn s).fnCalls = 2 ∧
      (Modify fn s).state.index = true) ∧
     (∀ b, (Modify (fun _ => (9, 1)) s).state.data b = 9) ∧
     (∀ b, (Modify (fun _ => (9, 1))
             (Modify (fun _ => (9, 1)) s).state).state.data b = 9)) := by
  have h := modify_applies_fn_to_both_slots (T := Nat)
    (fun x => (x + 1, x + 1))
    { data := fun b => if b then 0 else 5, index := false,
      createdKey := true, wrappers := [] } 9 (by decide)
  exact h

/-- C5: in `ModifyWithForeground` the `const` "other" argument of each of
the two invocations of `fn` is the slot opposite the one being mutated:
the pre-call foreground in phase 2, and the newly published foreground
(the value written in phase 2) in phase 5.  Hence, starting from both
slots equal to 5, the functor `slot := other + 1` leaves the published
foreground at 6 and the background at 7, so the two slots differ. -/
theorem modify_with_foreground_other_arg {T : Type} (fn : T → T → T × Nat)
    (s : DBD T) (h : (fn (s.data !s.index) (s.data s.index)).2 ≠ 0) :
    ((ModifyWithForeground fn s).state.index = !s.index ∧
     (ModifyWithForeground fn s).state.data (!s.index)
       = (fn (s.data !s.index) (s.data s.index)).1 ∧
     (ModifyWithForeground fn s).state.data s.index
       = (fn (s.data s.index) (fn (s.data !s.index) (s.data s.index)).1).1) ∧
    (let s5 : DBD Nat :=
      { data := fun _ => 5, index := false,
        createdKey := true, wrappers := [] }
     let inc : Nat → Nat → Nat × Nat := fun _ other => (other + 1, 1)
     let r := ModifyWithForeground inc s5
     r.state.data r.state.index = 6 ∧
     r.state.data (!r.state.index) = 7 ∧
     r.state.data r.state.index ≠ r.state.data (!r.state.index)) := by
  refine ⟨?_, by decide, by decide, by decide⟩
  simp [ModifyWithForeground, modifyCore, h, Bool.not_not]

/-- Witness for `modify_with_foreground_other_arg` at the claim's concrete
input: both slots 5, `fn` sets its slot to `other + 1`. -/
theorem modify_with_foreground_other_arg_witness :
    (let s5 : DBD Nat :=
      { data := fun _ => 5, index := false,
        createdKey := true, wrappers := [] }
     let inc : Nat → Nat → Nat × Nat := fun _ other => (other + 1, 1)
     (ModifyWithForeground inc s5).state.index = true ∧
     (ModifyWithForeground inc s5).state.data true = 6 ∧
     (ModifyWithForeground inc s5).state.data false = 7) := by
  have h := modify_with_foreground_other_arg (T := Nat)
    (fun _ other => (other + 1, 1))
    { data := fun _ => 5, index := false,
      createdKey := true, wrappers := [] } (by decide)
  exact h.1

/-- C8: when the first application of `fn` returns nonzero and the second
returns `0`, `Modify` returns `0` even though publication has already
occurred: `fg_index` is flipped and the new foreground slot holds the
result of the first application.  A zero return from `Modify` therefore
does not imply that the container is unchanged. -/
theorem modify_zero_return_after_publish {T : Type} (fn : T → T × Nat)
    (s : DBD T) (h1 : (fn (s.data !s.index)).2 ≠ 0)
    (h2 : (fn (s.data s.index)).2 = 0) :
    (Modify fn s).ret = 0 ∧
    (Modify fn s).state.index = !s.index ∧
    (Modify fn s).state.data (!s.index) = (fn (s.data !s.index)).1 := by
  simp [Modify, modifyCore, h1, h2, Bool.not_not]

/-- Witness for `modify_zero_return_after_publish`, exhibiting the function
whose existence C8 asserts: slots hold 5 (foreground) and 0 (background);
`fn` maps 0 to (7, return 1) and anything else to (itself, return 0), so
r1 = 1, r2 = 0, `Modify` returns 0, the index is flipped, and the new
foreground holds 7. -/
theorem modify_zero_return_after_publish_witness :
    (let s : DBD Nat :=
      { data := fun b => if b then 0 else 5, index := false,
        createdKey := true, wrappers := [] }
     let fn : Nat → Nat × Nat := fun x => if x = 0 then (7, 1) else (x, 0)
     (Modify fn s).ret = 0 ∧
     (Modify fn s).state.index = true ∧
     (Modify fn s).state.data true = 7) := by
  have h := modify_zero_return_after_publish (T := Nat)
    (fun x => if x = 0 then (7, 1) else (x, 0))
    { data := fun b => if b then 0 else 5, index := false,
      createdKey := true, wrappers := [] } (by decide) (by decide)
  exact h

/-- C6: `Read` returns `-1` exactly when per-thread storage initialization
failed during construction (`_created_key` false) or when the calling
thread has no wrapper yet and allocating/registering/binding one fails
(allocation failure, `push_back` throwing, or `pthread_setspecific`
failing); in every other case it returns `0` and points the guard at the
current foreground slot. -/
theorem read_failure_conditions {T : Type} (s : DBD T) (env : ReadEnv)
    (ptr : ScopedPtr) :
    ((Read s env ptr).ret = -1 ∨ (Read s env ptr).ret = 0) ∧
    ((Read s env ptr).ret = -1 ↔
      (s.createdKey = false ∨
       (env.existingWrapper = none ∧
        (env.allocOk = false ∨ env.pushOk = false ∨
         env.setSpecificOk = false)))) ∧
    ((Read s env ptr).ret = 0 → (Read s env ptr).ptr.data = some s.index) := by
  obtain ⟨ew, a, p, ss, nw⟩ := env
  obtain ⟨d, i, k, w⟩ := s
  cases k <;> cases ew <;> cases a <;> cases p <;> cases ss <;>
    simp [Read, AddWrapper]

/-- Witness for `read_failure_conditions` at a concrete container and a
fully successful environment: `Read` succeeds and the guard points at the
foreground slot. -/
theorem read_failure_conditions_witness :
    (let s : DBD Nat :=
      { data := fun _ => 0, index := false,
        createdKey := true, wrappers := [] }
     (Read s (freshReadEnv 7) ScopedPtr.mk0).ret = 0 ∧
     (Read s (freshReadEnv 7) ScopedPtr.mk0).ptr.data = some false) := by
  have h := read_failure_conditions (T := Nat)
    { data := fun _ => 0, index := false,
      createdKey := true, wrappers := [] } (freshReadEnv 7) ScopedPtr.mk0
  refine ⟨?_, h.2.2 (by decide)⟩
  rcases h.1 with h1 | h1
  · exact absurd (h.2.1.mp h1) (by decide)
  · exact h1

/-- C7 counterexample: the claim says a failing `Read` leaves the
container unchanged, but when `pthread_setspecific` fails after a
successful `AddWrapper`, the freshly registered wrapper stays in
`_wrappers`: on an empty registry, `Read` returns `-1` yet the registry
now holds the new wrapper. -/
theorem read_failure_not_registry_neutral :
    (let s : DBD Nat :=
      { data := fun _ => 0, index := false,
        createdKey := true, wrappers := [] }
     let env : ReadEnv :=
      { existingWrapper := none, allocOk := true, pushOk := true,
        setSpecificOk := false, newWid := 7 }
     (Read s env ScopedPtr.mk0).ret = -1 ∧
     s.wrappers = [] ∧
     (Read s env ScopedPtr.mk0).state.wrappers = [7]) := by
  exact ⟨rfl, rfl, rfl⟩

/-- C7 amended: whenever `Read` returns failure, the guard is untouched
(so a default guard's destruction performs no unlock) and the slots,
`fg_index` and key flag are unchanged; the reader registry is also
unchanged, except when the per-thread binding (`pthread_setspecific`)
fails after a successful registration — then the newly registered record
remains appended to the registry. -/
theorem read_failure_effects {T : Type} (s : DBD T) (env : ReadEnv)
    (ptr : ScopedPtr) (h : (Read s env ptr).ret = -1) :
    (Read s env ptr).ptr = ptr ∧
    scopedPtrDtorUnlocks ScopedPtr.mk0 = false ∧
    (Read s env ptr).state.data = s.data ∧
    (Read s env ptr).state.index = s.index ∧
    (Read s env ptr).state.createdKey = s.createdKey ∧
    ((s.createdKey = true ∧ env.existingWrapper = none ∧
      env.allocOk = true ∧ env.pushOk = true ∧ env.setSpecificOk = false) →
      (Read s env ptr).state.wrappers = s.wrappers ++ [env.newWid]) ∧
    (¬(s.createdKey = true ∧ env.existingWrapper = none ∧
       env.allocOk = true ∧ env.pushOk = true ∧ env.setSpecificOk = false) →
      (Read s env ptr).state.wrappers = s.wrappers) := by
  obtain ⟨ew, a, p, ss, nw⟩ := env
  obtain ⟨d, i, k, w⟩ := s
  cases k <;> cases ew <;> cases a <;> cases p <;> cases ss <;>
    simp_all [Read, AddWrapper, scopedPtrDtorUnlocks, ScopedPtr.mk0]

/-- Witness for `read_failure_effects` at a concrete failing input (the
per-thread key was never created): guard and container are untouched. -/
theorem read_failure_effects_witness :
    (let s : DBD Nat :=
      { data := fun _ => 0, index := false,
        createdKey := false, wrappers := [] }
     (Read s (freshReadEnv 7) ScopedPtr.mk0).ptr = ScopedPtr.mk0 ∧
     (Read s (freshReadEnv 7) ScopedPtr.mk0).state.wrappers = []) := by
  have h := read_failure_effects (T := Nat)
    { data := fun _ => 0, index := false,
      createdKey := false, wrappers := [] } (freshReadEnv 7) ScopedPtr.mk0
    (by decide)
  exact ⟨h.1, h.2.2.2.2.2.2 (by simp [freshReadEnv])⟩

/-- C9: the constructor initialises `fg_index` to `0` regardless of `T`,
and for scalar-like `T` (integral, floating-point, pointer or
member-function-pointer types) assigns a default-constructed `T()` to both
slots, so a first `Read` performed before any `Modify` succeeds and
observes the defined default value through the foreground slot. -/
theorem ctor_init_and_first_read {T : Type} (dflt : T) (garbage : Bool → T)
    (keyOk scalar : Bool) (wid : Nat) :
    (mkDBD scalar dflt garbage keyOk).index = false ∧
    (mkDBD true dflt garbage keyOk).data false = dflt ∧
    (mkDBD true dflt garbage keyOk).data true = dflt ∧
    (Read (mkDBD true dflt garbage true) (freshReadEnv wid)
        ScopedPtr.mk0).ret = 0 ∧
    (Read (mkDBD true dflt garbage true) (freshReadEnv wid)
        ScopedPtr.mk0).ptr.data = some false ∧
    (mkDBD true dflt garbage true).data
        (mkDBD true dflt garbage true).index = dflt := by
  refine ⟨rfl, rfl, rfl, rfl, rfl, rfl⟩

/-- Helper: dropping the last element of a cons with a nonempty tail keeps
the head. -/
theorem dropLast_cons_ne_nil {α : Type} (a : α) {l : List α} (h : l ≠ []) :
    (a :: l).dropLast = a :: l.dropLast := by
  cases l with
  | nil => exact absurd rfl h
  | cons b tl => exact List.dropLast_cons₂ ..

/-- Helper for the swap-with-last removal used by `RemoveWrapper`: on a
duplicate-free list containing `x` whose last element is `last`,
overwriting the first occurrence of `x` with `last` and dropping the final
position removes `x` and keeps every other element. -/
theorem replaceLast_dropLast_mem (x : Nat) :
    ∀ (l : List Nat) (last : Nat), l.Nodup → x ∈ l → l.getLast? = some last →
      x ∉ (l.replace x last).dropLast ∧
      ∀ y, y ≠ x → (y ∈ (l.replace x last).dropLast ↔ y ∈ l)
  | [], last, _, hx, _ => absurd hx (by simp)
  | [a], last, hnd, hx, hl => by
      have hxa : x = a := by simpa using hx
      have h2 : ([a] : List Nat).getLast? = some a := rfl
      rw [h2] at hl
      have hla : last = a := (Option.some.inj hl).symm
      subst hxa
      rw [hla]
      refine ⟨by simp [List.replace_cons], fun y hy => ?_⟩
      simp [List.replace_cons, hy]
  | a :: b :: tl, last, hnd, hx, hl => by
      have hne : (b :: tl) ≠ ([] : List Nat) := by simp
      have hl2 : (b :: tl).getLast? = some last := by
        rwa [List.getLast?_cons_cons] at hl
      have hglast : (b :: tl).getLast hne = last := by
        have h3 := List.getLast?_eq_getLast (l := b :: tl) hne
        rw [h3] at hl2
        exact Option.some.inj hl2
      have hlast_mem : last ∈ b :: tl := hglast ▸ List.getLast_mem hne
      have hsplit : (b :: tl).dropLast ++ [last] = b :: tl := by
        conv_rhs => rw [← List.dropLast_append_getLast hne]
        rw [hglast]
      by_cases hax : x = a
      · subst hax
        have hnotin : x ∉ b :: tl := (List.nodup_cons.1 hnd).1
        rw [show (x :: b :: tl).replace x last = last :: b :: tl by
              simp [List.replace_cons],
            dropLast_cons_ne_nil last hne]
        constructor
        · intro hmem
          rcases List.mem_cons.1 hmem with h | h
          · exact hnotin (h ▸ hlast_mem)
          · exact hnotin (List.dropLast_subset _ h)
        · intro y hy
          constructor
          · intro hmem
            rcases List.mem_cons.1 hmem with h | h
            · exact List.mem_cons_of_mem _ (h ▸ hlast_mem)
            · exact List.mem_cons_of_mem _ (List.dropLast_subset _ h)
          · intro hmem
            rcases List.mem_cons.1 hmem with h | h
            · exact absurd h hy
            · have h4 : y ∈ (b :: tl).dropLast ++ [last] := by
                rw [hsplit]; exact h
              rcases List.mem_append.1 h4 with h2 | h2
              · exact List.mem_cons_of_mem _ h2
              · exact List.mem_cons.2 (Or.inl (by simpa using h2))
      · have hxtl : x ∈ b :: tl := by
          rcases List.mem_cons.1 hx with h | h
          · exact absurd h hax
          · exact h
        have ih := replaceLast_dropLast_mem x (b :: tl) last
          (List.nodup_cons.1 hnd).2 hxtl hl2
        have hrep : (a :: b :: tl).replace x last
            = a :: (b :: tl).replace x last := by
          simp [List.replace_cons, beq_eq_false_iff_ne.2 hax]
        have hrepne : (b :: tl).replace x last ≠ [] := by
          intro h
          have h5 := congrArg List.length h
          simp at h5
        rw [hrep, dropLast_cons_ne_nil a hrepne]
        constructor
        · intro hmem
          rcases List.mem_cons.1 hmem with h | h
          · exact hax h
          · exact ih.1 h
        · intro y hy
          rw [List.mem_cons, List.mem_cons, ih.2 y hy]

/-- C10: the wrapper destructor touches the registry exactly when its
back-pointer to the container is non-null (a null back-pointer means the
container was already destroyed and removal is skipped), and on a
duplicate-free registry containing the wrapper, `RemoveWrapper` deletes
exactly that record while every other record remains — so after a thread's
exit no registration owned by that thread remains in the registry. -/
theorem wrapper_dtor_cleanup (regs : List Nat) (w : Wrapper)
    (hnd : regs.Nodup) :
    (w.controlNonNull = false → wrapperDtorRegistry regs w = regs) ∧
    (w.controlNonNull = true → w.wid ∈ regs →
      w.wid ∉ wrapperDtorRegistry regs w ∧
      ∀ y, y ≠ w.wid → (y ∈ wrapperDtorRegistry regs w ↔ y ∈ regs)) := by
  constructor
  · intro hc
    simp [wrapperDtorRegistry, hc]
  · intro hc hmem
    have hne : regs ≠ [] := by rintro rfl; simp at hmem
    have hlast := List.getLast?_eq_getLast (l := regs) hne
    have key := replaceLast_dropLast_mem w.wid regs (regs.getLast hne)
      hnd hmem hlast
    have hred : wrapperDtorRegistry regs w
        = (regs.replace w.wid (regs.getLast hne)).dropLast := by
      simp [wrapperDtorRegistry, RemoveWrapper, hc, hlast, hmem]
    rw [hred]
    exact key

/-- Witness for `wrapper_dtor_cleanup` on the concrete registry `[1, 2, 3]`:
destroying the wrapper `2` with a live back-pointer removes `2` and keeps
`1` and `3`; with a null back-pointer the registry is untouched. -/
theorem wrapper_dtor_cleanup_witness :
    (2 ∉ wrapperDtorRegistry [1, 2, 3] { wid := 2, controlNonNull := true } ∧
     (1 ∈ wrapperDtorRegistry [1, 2, 3] { wid := 2, controlNonNull := true } ↔
       1 ∈ [1, 2, 3]) ∧
     (3 ∈ wrapperDtorRegistry [1, 2, 3] { wid := 2, controlNonNull := true } ↔
       3 ∈ [1, 2, 3]) ∧
     wrapperDtorRegistry [1, 2, 3] { wid := 2, controlNonNull := false }
       = [1, 2, 3]) := by
  have h := wrapper_dtor_cleanup [1, 2, 3]
    { wid := 2, controlNonNull := true } (by decide)
  have h2 := wrapper_dtor_cleanup [1, 2, 3]
    { wid := 2, controlNonNull := false } (by decide)
  exact ⟨(h.2 rfl (by decide)).1, (h.2 rfl (by decide)).2 1 (by decide),
    (h.2 rfl (by decide)).2 3 (by decide), h2.1 rfl⟩

end DBDSpec
